import Mathlib

/-!
Verification development for the xiaoyou-core scheduling core.

Shallow embedding of the two scheduler implementations:

* `ResourceIsolationScheduler` (src/cpp_scheduler/core/resource_isolation_scheduler.{h,cpp})
  modelled by the `R`-prefixed types below (`RState`, `risCancel`, `risStep`, ...).
  Task records are `shared_ptr<Task<R>>` objects shared between the `tasks_` map and
  the class queues; we model the heap of task objects as `RState.store` (keyed by
  `taskId`) and the `tasks_` map and queues as lists of ids into that store, so the
  aliasing between map and queue entries is preserved.  Calls the scheduler makes
  into the outside world (worker invocation, completion-handler invocation) are
  traced as `REvent`s; `resource_isolation_scheduler.cpp` invokes workers via
  `worker->processTask(task)` and contains no completion-handler call site.

* `AsyncScheduler` (src/cpp_scheduler/core/async_scheduler.{h,cpp}) modelled by the
  `A`-prefixed types (`AState`, `asyncSubmit`, `asyncCancel`, `asyncDequeue`,
  `pickNext`).  `ai_scheduler::Task` objects are immutable apart from construction,
  so the `tasks_` map and the three `std::vector` queues are modelled directly.

* the worker registry part of `ResourceIsolationScheduler` (`addWorker`,
  `selectWorker`, and the inline GPU-worker selection in
  `processImageGenerationQueue`) modelled by `Registry`, `addWorker`,
  `selectWorker`, `selectImageWorker`.  Worker objects are compared by
  `shared_ptr` identity in the source; field `Worker.ptr` stands for the pointer
  value.
-/

/-- Task priority, `TaskPriority` in both headers (HIGH, MEDIUM, LOW). -/
inductive Prio
  | HIGH
  | MEDIUM
  | LOW
deriving DecidableEq, Repr

/-- Task status of `resource_isolation_scheduler.h` (`TaskStatus`). -/
inductive RStatus
  | PENDING
  | RUNNING
  | COMPLETED
  | FAILED
  | CANCELLED
deriving DecidableEq, Repr

/-- Task classes of `resource_isolation_scheduler.h` (`TaskType`). -/
inductive RType
  | LLM_INFERENCE
  | TTS_SYNTHESIS
  | IMAGE_GENERATION
deriving DecidableEq, Repr

/-- The stored task function `std::function<ResultType()> task_` of `Task<ResultType>`:
either returns a value or throws an exception carrying a message.  `ResultType` is
modelled as `String`. -/
inductive TaskFn
  | ok (v : String)
  | fail (m : String)
deriving DecidableEq, Repr

/-- One `Task<ResultType>` object of `resource_isolation_scheduler.h` (lines 154-206):
`taskId_`, `type_`, `priority_`, `status_`, `result_`, `exception_` (as the carried
message), and the bound task function `task_`. -/
structure RTask where
  taskId : String
  rtype : RType
  prio : Prio
  status : RStatus
  result : Option String
  err : Option String
  fn : TaskFn
deriving DecidableEq, Repr

/-- Id generation of `Task<ResultType>::Task` (resource_isolation_scheduler.h line 161):
`taskId_ = "task_" + std::to_string(system_clock::now().time_since_epoch().count())`.
The constructor is a function of the clock reading observed at construction time. -/
def risTaskIdString (clock : Nat) : String :=
  "task_" ++ toString clock

/-- Ids produced by a sequence of `Task<ResultType>` constructions whose clock
readings are the given list. -/
def risTaskIds (clocks : List Nat) : List String :=
  clocks.map risTaskIdString

/-- Construction of a `Task<ResultType>` (resource_isolation_scheduler.h lines 157-165):
status starts `PENDING`, id derived from the clock reading, function bound. -/
def mkRTask (clock : Nat) (ty : RType) (p : Prio) (fn : TaskFn) : RTask :=
  { taskId := risTaskIdString clock, rtype := ty, prio := p, status := .PENDING,
    result := none, err := none, fn := fn }

/-- The fields of a task object a worker may mutate through the `ITask` interface
during one `processTask` call: status, result, stored exception.  (`ITask` exposes
`setStatus`; `Task<ResultType>::execute` additionally writes `result_` /
`exception_`.  `taskId_`, `type_`, `priority_` have no mutators.) -/
def TaskUpd := RStatus × Option String × Option String

/-- Apply a worker-side mutation to a task object. -/
def applyUpd (t : RTask) (u : TaskUpd) : RTask :=
  { t with status := u.1, result := u.2.1, err := u.2.2 }

/-- The mutation performed by `Task<ResultType>::execute`
(resource_isolation_scheduler.h lines 167-176): run `task_()`; on normal return set
status `COMPLETED` and store the result; on a thrown exception set status `FAILED`
and store the exception.  (The transient `RUNNING` write at entry is not observable
in the final object state modelled here.) -/
def execUpd (t : RTask) : TaskUpd :=
  match t.fn with
  | .ok v => (.COMPLETED, some v, none)
  | .fail m => (.FAILED, none, some m)

/-- Behaviour of one `worker->processTask(task)` call as observed by the scheduler:
either it returns normally having applied some mutation to the task object, or it
throws an exception with a message (`Except.error`). -/
def WorkerFn := RTask → Except String TaskUpd

/-- The well-behaved worker: `processTask` runs the task via `ITask::execute` and
returns normally (the exception of the task function is absorbed by `execute`). -/
def execWorker : WorkerFn := fun t => Except.ok (execUpd t)

/-- Lookup in the heap of task objects by `taskId` (first match). -/
def storeGet : List RTask → String → Option RTask
  | [], _ => none
  | t :: rest, id => if t.taskId = id then some t else storeGet rest id

/-- In-place mutation of the task object with the given id (first match),
modelling a write through the shared pointer. -/
def storeSet : List RTask → String → RTask → List RTask
  | [], _, _ => []
  | t :: rest, id, t2 => if t.taskId = id then t2 :: rest else t :: storeSet rest id t2

/-- Externally observable calls made by `ResourceIsolationScheduler`:
worker invocations (`worker->processTask(task)`) and completion-handler
invocations.  The second constructor exists to state spec claims about handler
signalling; the scheduler source contains no completion-handler call site. -/
inductive REvent
  | workerInvoked (id : String)
  | handlerInvoked (id : String) (outcome : RStatus)
deriving DecidableEq, Repr

/-- State of a `ResourceIsolationScheduler` object (resource_isolation_scheduler.h
lines 122-150, task-side fields): the heap of live task objects, the key set of
the `tasks_` map, the three class queues (as id lists into the store), the
`running_` / `initialized_` flags, and the counters. -/
structure RState where
  store : List RTask
  tasksIdx : List String
  llmQ : List String
  ttsQ : List String
  imageQ : List String
  running : Bool
  initDone : Bool
  totalTasks : Nat
  completedTasks : Nat
  failedTasks : Nat
deriving DecidableEq, Repr

/-- A freshly constructed scheduler (constructor, resource_isolation_scheduler.cpp
lines 10-13). -/
def risEmpty : RState :=
  { store := [], tasksIdx := [], llmQ := [], ttsQ := [], imageQ := [],
    running := false, initDone := false,
    totalTasks := 0, completedTasks := 0, failedTasks := 0 }

/-- `ResourceIsolationScheduler::initialize` (lines 19-47): no-op when already
initialized, otherwise sets `running_` and `initialized_` (thread spawning is
outside the state model). -/
def risInit (st : RState) : RState :=
  if st.initDone then st else { st with running := true, initDone := true }

/-- `ResourceIsolationScheduler::submitTask` (resource_isolation_scheduler.h lines
209-250): store the task under its id, bump `totalTasks_`, and push it into the
queue matching its type. -/
def risSubmit (st : RState) (t : RTask) : RState :=
  let st1 := { st with store := st.store ++ [t],
                       tasksIdx := st.tasksIdx ++ [t.taskId],
                       totalTasks := st.totalTasks + 1 }
  match t.rtype with
  | .LLM_INFERENCE => { st1 with llmQ := st1.llmQ ++ [t.taskId] }
  | .TTS_SYNTHESIS => { st1 with ttsQ := st1.ttsQ ++ [t.taskId] }
  | .IMAGE_GENERATION => { st1 with imageQ := st1.imageQ ++ [t.taskId] }

/-- `tasks_.find(taskId)`: the task object, provided its id is a live key of the
`tasks_` map. -/
def risLookup (st : RState) (id : String) : Option RTask :=
  if id ∈ st.tasksIdx then storeGet st.store id else none

/-- `ResourceIsolationScheduler::getTaskStatus` (lines 145-152): status of the
mapped task, and `CANCELLED` when the id is not in `tasks_`
("任务不存在视为已取消" — a nonexistent task counts as cancelled). -/
def getTaskStatus (st : RState) (id : String) : RStatus :=
  match risLookup st id with
  | some t => t.status
  | none => .CANCELLED

/-- `ResourceIsolationScheduler::cancelTask` (lines 131-143): under the queue lock,
look the id up in `tasks_`; if the task is `PENDING`, set its status to
`CANCELLED`, erase the map entry (the object stays in its class queue), and return
true; in every other case return false.  The returned event list traces the calls
the function makes (it makes none). -/
def risCancel (st : RState) (id : String) : Bool × RState × List REvent :=
  match risLookup st id with
  | some t =>
    if t.status = .PENDING then
      (true,
       { st with store := storeSet st.store id { t with status := .CANCELLED },
                 tasksIdx := st.tasksIdx.erase id },
       [])
    else (false, st, [])
  | none => (false, st, [])

/-- Status of the task object with the given id, read through the shared pointer
(ignores whether the id is still a key of `tasks_`). -/
def statusAt (st : RState) (id : String) : Option RStatus :=
  (storeGet st.store id).map RTask.status

/-- Stored exception (error) of the task object with the given id. -/
def errAt (st : RState) (id : String) : Option (Option String) :=
  (storeGet st.store id).map RTask.err

/-- Stored result of the task object with the given id. -/
def resultAt (st : RState) (id : String) : Option (Option String) :=
  (storeGet st.store id).map RTask.result

/-- Terminal-status test used at the end of `processTaskQueues` (lines 284-289). -/
def isTerminal : RStatus → Bool
  | .COMPLETED => true
  | .FAILED => true
  | .CANCELLED => true
  | _ => false

/-- One iteration of `ResourceIsolationScheduler::processTaskQueues` (lines
213-290), parametrised by the behaviour `wb` of the selected worker's
`processTask` and by whether `selectWorker` finds a worker (`haveWorker`):

1. pop the LLM queue first, else the TTS queue; if both empty, wait and return;
2. if the popped object's status is `CANCELLED`, erase it from `tasks_` and
   return without invoking any worker;
3. with a worker: invoke it (traced); on normal return bump the completed/failed
   counter according to the task's status, on a thrown exception set the task
   `FAILED` and bump `failedTasks_`;
4. without a worker: push the task back to the tail of its queue;
5. finally erase the task from `tasks_` when its status is terminal.

`risStepBody` is the part after the pop (steps 2-5), on the state `st1` in which
the id has already been removed from its queue; `risStep` performs the pop and
delegates to it. -/
def risStepBody (wb : WorkerFn) (haveWorker : Bool) (id : String) (ty : RType)
    (st1 : RState) : RState × List REvent :=
    match storeGet st1.store id with
    | none => (st1, [])
    | some t =>
      if t.status = .CANCELLED then
        ({ st1 with tasksIdx := st1.tasksIdx.erase id }, [])
      else if haveWorker then
        match wb t with
        | .ok u =>
          let t2 := applyUpd t u
          let st2 := { st1 with
            store := storeSet st1.store id t2,
            completedTasks :=
              if t2.status = .COMPLETED then st1.completedTasks + 1 else st1.completedTasks,
            failedTasks :=
              if t2.status = .FAILED then st1.failedTasks + 1 else st1.failedTasks }
          (if isTerminal t2.status then { st2 with tasksIdx := st2.tasksIdx.erase id } else st2,
           [.workerInvoked id])
        | .error _ =>
          let t2 := { t with status := .FAILED }
          let st2 := { st1 with store := storeSet st1.store id t2,
                                failedTasks := st1.failedTasks + 1 }
          ({ st2 with tasksIdx := st2.tasksIdx.erase id }, [.workerInvoked id])
      else
        let st2 :=
          match ty with
          | .LLM_INFERENCE => { st1 with llmQ := st1.llmQ ++ [id] }
          | .TTS_SYNTHESIS => { st1 with ttsQ := st1.ttsQ ++ [id] }
          | .IMAGE_GENERATION => st1
        (if isTerminal t.status then { st2 with tasksIdx := st2.tasksIdx.erase id } else st2,
         [])

/-- One iteration of `processTaskQueues`: pop the LLM queue first, else the TTS
queue (lines 218-237), then run the rest of the iteration (`risStepBody`). -/
def risStep (wb : WorkerFn) (haveWorker : Bool) (st : RState) : RState × List REvent :=
  match st.llmQ with
  | id :: rest => risStepBody wb haveWorker id .LLM_INFERENCE { st with llmQ := rest }
  | [] =>
    match st.ttsQ with
    | id :: rest => risStepBody wb haveWorker id .TTS_SYNTHESIS { st with ttsQ := rest }
    | [] => (st, [])

/-- Iterated dispatch: `n` iterations of the worker-thread loop body
(`while (running_) processTaskQueues();`, lines 28-32), collecting the traced
events in order. -/
def risRun (wb : WorkerFn) (haveWorker : Bool) : Nat → RState → RState × List REvent
  | 0, st => (st, [])
  | n + 1, st =>
    let p1 := risStep wb haveWorker st
    let p2 := risRun wb haveWorker n p1.1
    (p2.1, p1.2 ++ p2.2)

/-- `ResourceIsolationScheduler::shutdown` (lines 49-94): no-op when not
initialized; otherwise clear `running_`, join the dispatch threads, clear the
worker lists, pop every queue empty, clear `tasks_`, and clear `initialized_`.
No task status is written and no handler is signalled; the task objects
themselves (the store) are untouched. -/
def risShutdown (st : RState) : RState × List REvent :=
  if st.initDone then
    ({ st with running := false,
               llmQ := [], ttsQ := [], imageQ := [],
               tasksIdx := [],
               initDone := false },
     [])
  else (st, [])

/-- Worker record for the registry part of `ResourceIsolationScheduler`.
`ptr` stands for the `shared_ptr` identity of the `IWorker` object; `canLLM`,
`canTTS`, `canIMG` are the results of `canHandle` for the three task types;
`busy` is `isBusy()`. -/
structure Worker where
  ptr : Nat
  canLLM : Bool
  canTTS : Bool
  canIMG : Bool
  busy : Bool
deriving DecidableEq, Repr

/-- `IWorker::canHandle`. -/
def canHandle (w : Worker) : RType → Bool
  | .LLM_INFERENCE => w.canLLM
  | .TTS_SYNTHESIS => w.canTTS
  | .IMAGE_GENERATION => w.canIMG

/-- Worker-side state of `ResourceIsolationScheduler` (resource_isolation_scheduler.h
lines 122-125): `workers_`, `gpuWorkers_`, `cpuWorkers_`, `llmWorker_`. -/
structure Registry where
  workers : List Worker
  gpuWorkers : List Worker
  cpuWorkers : List Worker
  llmWorker : Option Worker
deriving DecidableEq, Repr

/-- Registry of a freshly constructed scheduler. -/
def regEmpty : Registry :=
  { workers := [], gpuWorkers := [], cpuWorkers := [], llmWorker := none }

/-- `ResourceIsolationScheduler::addWorker` (lines 96-129), successful path
(non-null worker whose `initialize()` does not throw): append to `workers_`;
a worker able to handle LLM or image work joins `gpuWorkers_`, and the first
LLM-capable one becomes the dedicated `llmWorker_`; otherwise a TTS-capable
worker joins `cpuWorkers_`. -/
def addWorker (r : Registry) (w : Worker) : Registry :=
  let r1 := { r with workers := r.workers ++ [w] }
  if w.canLLM || w.canIMG then
    let r2 := { r1 with gpuWorkers := r1.gpuWorkers ++ [w] }
    if w.canLLM && r2.llmWorker.isNone then { r2 with llmWorker := some w } else r2
  else if w.canTTS then
    { r1 with cpuWorkers := r1.cpuWorkers ++ [w] }
  else r1

/-- Registry obtained by registering the given workers in order on a fresh
scheduler. -/
def buildRegistry (ws : List Worker) : Registry :=
  ws.foldl addWorker regEmpty

/-- The `worker != llmWorker_` test of `selectWorker` /
`processImageGenerationQueue` (`shared_ptr` comparison; true when `llmWorker_`
is null). -/
def notSameAsLLM (r : Registry) (w : Worker) : Bool :=
  match r.llmWorker with
  | some lw => w.ptr != lw.ptr
  | none => true

/-- The non-dedicated part of `ResourceIsolationScheduler::selectWorker`
(lines 300-315): TTS looks for an idle capable CPU worker; other types look for
an idle capable GPU worker distinct from `llmWorker_`. -/
def selectRest (r : Registry) (ty : RType) : Option Worker :=
  if ty = .TTS_SYNTHESIS then
    r.cpuWorkers.find? (fun w => canHandle w ty && !w.busy)
  else
    r.gpuWorkers.find? (fun w => notSameAsLLM r w && canHandle w ty && !w.busy)

/-- `ResourceIsolationScheduler::selectWorker` (lines 292-318): an LLM task takes
the dedicated `llmWorker_` when it exists and is idle; otherwise fall through to
the per-type search. -/
def selectWorker (r : Registry) (ty : RType) : Option Worker :=
  match r.llmWorker with
  | some lw =>
    if ty = .LLM_INFERENCE then
      if lw.busy then selectRest r ty else some lw
    else selectRest r ty
  | none => selectRest r ty

/-- The inline GPU-worker selection of
`ResourceIsolationScheduler::processImageGenerationQueue` (lines 347-353):
first idle image-capable GPU worker distinct from `llmWorker_`. -/
def selectImageWorker (r : Registry) : Option Worker :=
  r.gpuWorkers.find? (fun w => notSameAsLLM r w && canHandle w .IMAGE_GENERATION && !w.busy)

/-- Task classes of `async_scheduler.h` (`ai_scheduler::TaskType`). -/
inductive AType
  | LLM_GPU
  | TTS_CPU
  | IMAGE_GPU_QUEUE
deriving DecidableEq, Repr

/-- One `ai_scheduler::Task` (async_scheduler.h lines 28-52): `id_`, `type_`,
`priority_`; `payload` stands for the concrete subclass's request data. -/
structure ATask where
  id : Nat
  atype : AType
  prio : Prio
  payload : String
deriving DecidableEq, Repr

/-- `ai_scheduler::Task::Task` (async_scheduler.cpp lines 9-13): the id is drawn
from the atomic counter `next_id_` (initialised to 0) which is then incremented.
Returns the constructed task and the new counter value. -/
def mkATask (nextId : Nat) (ty : AType) (p : Prio) (payload : String) : ATask × Nat :=
  ({ id := nextId, atype := ty, prio := p, payload := payload }, nextId + 1)

/-- Ids of `n` successive `ai_scheduler::Task` constructions starting from
counter value `c`. -/
def aTaskIdsFrom (c : Nat) : Nat → List Nat
  | 0 => []
  | n + 1 => c :: aTaskIdsFrom (c + 1) n

/-- `tasks_[k] = v` on the `unordered_map`: overwrite the existing entry for `k`
or append a new one. -/
def mapInsert : List (Nat × ATask) → Nat → ATask → List (Nat × ATask)
  | [], k, v => [(k, v)]
  | (k1, v1) :: rest, k, v =>
    if k1 = k then (k, v) :: rest else (k1, v1) :: mapInsert rest k v

/-- `tasks_.erase(k)` on the `unordered_map`. -/
def mapErase : List (Nat × ATask) → Nat → List (Nat × ATask)
  | [], _ => []
  | (k1, v1) :: rest, k =>
    if k1 = k then rest else (k1, v1) :: mapErase rest k

/-- `tasks_.find(k)` on the `unordered_map`. -/
def mapLookup : List (Nat × ATask) → Nat → Option ATask
  | [], _ => none
  | (k1, v1) :: rest, k => if k1 = k then some v1 else mapLookup rest k

/-- State of an `AsyncScheduler` (async_scheduler.h lines 87-99): the
`tasks_` map and the three per-class queues (`std::vector<std::shared_ptr<Task>>`),
plus the `running_` flag. -/
structure AState where
  tasks : List (Nat × ATask)
  llmQ : List ATask
  ttsQ : List ATask
  imgQ : List ATask
  running : Bool
deriving DecidableEq, Repr

/-- `AsyncScheduler::submitTask` (async_scheduler.cpp lines 132-161): a null task
pointer yields 0 with no state change; otherwise the task is entered into
`tasks_`, pushed onto the queue of its type, and its id is returned. -/
def asyncSubmit (st : AState) (t : Option ATask) : Nat × AState :=
  match t with
  | none => (0, st)
  | some t =>
    let st1 := { st with tasks := mapInsert st.tasks t.id t }
    let st2 :=
      match t.atype with
      | .LLM_GPU => { st1 with llmQ := st1.llmQ ++ [t] }
      | .TTS_CPU => { st1 with ttsQ := st1.ttsQ ++ [t] }
      | .IMAGE_GPU_QUEUE => { st1 with imgQ := st1.imgQ ++ [t] }
    (t.id, st2)

/-- `AsyncScheduler::cancelTask` (async_scheduler.cpp lines 163-185): if the id is
a key of `tasks_`, remove every queue entry with that id from the queue of the
task's type (`std::remove_if`), erase the map entry, and return true; otherwise
return false.  No execution state is consulted. -/
def asyncCancel (st : AState) (id : Nat) : Bool × AState :=
  match mapLookup st.tasks id with
  | none => (false, st)
  | some t =>
    let dropQ (q : List ATask) : List ATask := q.filter (fun u => u.id != id)
    let st1 :=
      match t.atype with
      | .LLM_GPU => { st with llmQ := dropQ st.llmQ }
      | .TTS_CPU => { st with ttsQ := dropQ st.ttsQ }
      | .IMAGE_GPU_QUEUE => { st with imgQ := dropQ st.imgQ }
    (true, { st1 with tasks := mapErase st1.tasks id })

/-- Is this task HIGH priority (the predicate of the `std::find_if` in
`AsyncScheduler::workerThreadFunction`, lines 211-214)? -/
def isHigh (t : ATask) : Bool := t.prio == Prio.HIGH

/-- The `find_if` + `erase` of `workerThreadFunction`: return the first
HIGH-priority task together with the queue without it, or none when no task is
HIGH. -/
def pickHigh : List ATask → Option (ATask × List ATask)
  | [] => none
  | t :: rest =>
    if isHigh t then some (t, rest)
    else
      match pickHigh rest with
      | some (u, rest2) => some (u, t :: rest2)
      | none => none

/-- Task selection of `AsyncScheduler::workerThreadFunction` (lines 209-224): the
first HIGH-priority task when one is queued, otherwise the queue front. -/
def pickNext (q : List ATask) : Option (ATask × List ATask) :=
  match pickHigh q with
  | some r => some r
  | none =>
    match q with
    | [] => none
    | t :: rest => some (t, rest)

/-- The first HIGH-priority task of a queue (specification-side description of
what `find_if` locates). -/
def firstHigh (q : List ATask) : Option ATask := q.find? isHigh

/-- The locked dequeue section of `workerThreadFunction` (lines 193-225): select a
task from the queue matching the worker's type and remove it from that queue.
The `tasks_` map is not touched here; the entry is erased only after
`task->execute()` returns (lines 227-250). -/
def asyncDequeue (ty : AType) (st : AState) : Option (ATask × AState) :=
  match ty with
  | .LLM_GPU => (pickNext st.llmQ).map (fun p => (p.1, { st with llmQ := p.2 }))
  | .TTS_CPU => (pickNext st.ttsQ).map (fun p => (p.1, { st with ttsQ := p.2 }))
  | .IMAGE_GPU_QUEUE => (pickNext st.imgQ).map (fun p => (p.1, { st with imgQ := p.2 }))

/-- Payloads of the tasks of one class queue in the order a single worker thread
of that class starts them (repeated `pickNext`). -/
def startNames : Nat → List ATask → List String
  | 0, _ => []
  | n + 1, q =>
    match pickNext q with
    | none => []
    | some (t, rest) => t.payload :: startNames n rest

/-- Scenario task "a" of spec test S2: TTS, priority Low, submitted first. -/
def taskA : ATask := { id := 0, atype := .TTS_CPU, prio := .LOW, payload := "a" }

/-- Scenario task "b" of spec test S2: TTS, priority High, submitted second. -/
def taskB : ATask := { id := 1, atype := .TTS_CPU, prio := .HIGH, payload := "b" }

/-- Scenario task "c" of spec test S2: TTS, priority Medium, submitted third. -/
def taskC : ATask := { id := 2, atype := .TTS_CPU, prio := .MEDIUM, payload := "c" }

/-- The S2 TTS queue after submitting "a", "b", "c" in that order. -/
def ttsSampleQ : List ATask := [taskA, taskB, taskC]

/-- S2 scenario task "a" for the `ResourceIsolationScheduler` side (its TTS queue
is a plain FIFO `std::queue`). -/
def rTaskA : RTask :=
  { taskId := "a", rtype := .TTS_SYNTHESIS, prio := .LOW, status := .PENDING,
    result := none, err := none, fn := .ok "ra" }

/-- S2 scenario task "b" for the `ResourceIsolationScheduler` side. -/
def rTaskB : RTask :=
  { taskId := "b", rtype := .TTS_SYNTHESIS, prio := .HIGH, status := .PENDING,
    result := none, err := none, fn := .ok "rb" }

/-- S2 scenario task "c" for the `ResourceIsolationScheduler` side. -/
def rTaskC : RTask :=
  { taskId := "c", rtype := .TTS_SYNTHESIS, prio := .MEDIUM, status := .PENDING,
    result := none, err := none, fn := .ok "rc" }

/-- `ResourceIsolationScheduler` state after initialising and submitting the S2
tasks "a", "b", "c" in order. -/
def risSampleTTS : RState :=
  risSubmit (risSubmit (risSubmit (risInit risEmpty) rTaskA) rTaskB) rTaskC

/-- Sample LLM task used to instantiate general theorems (constructed at clock
reading 7). -/
def rTaskL : RTask := mkRTask 7 RType.LLM_INFERENCE Prio.HIGH (TaskFn.ok "x")

/-- Sample worker: LLM-capable, becomes the dedicated `llmWorker_` when
registered first. -/
def wLM0 : Worker := { ptr := 0, canLLM := true, canTTS := false, canIMG := false, busy := false }

/-- Sample worker: TTS-only CPU worker. -/
def wTTS0 : Worker := { ptr := 1, canLLM := false, canTTS := true, canIMG := false, busy := false }

/-- Sample worker: image-capable GPU worker. -/
def wIMG0 : Worker := { ptr := 2, canLLM := false, canTTS := false, canIMG := true, busy := false }

/-- Sample `ResourceIsolationScheduler` state holding one task object "a" in
status `RUNNING` that is still a key of `tasks_` (the situation while a worker
executes it). -/
def stRunningA : RState :=
  { risEmpty with store := [{ rTaskA with status := RStatus.RUNNING }], tasksIdx := ["a"] }

/-- Sample `AsyncScheduler` state: task "b" (id 1) queued in the TTS queue and
indexed in `tasks_`. -/
def aStateB : AState :=
  { tasks := [(1, taskB)], llmQ := [], ttsQ := [taskB], imgQ := [], running := true }

theorem storeGet_eq_id {s : List RTask} {id : String} {t : RTask}
    (h : storeGet s id = some t) : t.taskId = id := by
  induction s with
  | nil => simp [storeGet] at h
  | cons hd tl ih =>
    by_cases hh : hd.taskId = id
    · simp [storeGet, hh] at h
      subst h
      exact hh
    · simp [storeGet, hh] at h
      exact ih h

theorem storeGet_set_self {s : List RTask} {id : String} {t t2 : RTask}
    (h : storeGet s id = some t) (h2 : t2.taskId = id) :
    storeGet (storeSet s id t2) id = some t2 := by
  induction s with
  | nil => simp [storeGet] at h
  | cons hd tl ih =>
    by_cases hh : hd.taskId = id
    · simp [storeSet, hh, storeGet, h2]
    · simp [storeGet, storeSet, hh] at h ⊢
      exact ih h

theorem storeGet_set_ne {s : List RTask} {id id2 : String} {t2 : RTask}
    (hne : id2 ≠ id) (h2 : t2.taskId = id2) :
    storeGet (storeSet s id2 t2) id = storeGet s id := by
  induction s with
  | nil => simp [storeSet]
  | cons hd tl ih =>
    by_cases hh : hd.taskId = id2
    · have : hd.taskId ≠ id := by rw [hh]; exact hne
      simp [storeSet, storeGet, hh, this, h2, hne]
    · by_cases hh2 : hd.taskId = id
      · simp [storeSet, storeGet, hh, hh2, Ne.symm hne]
      · simp [storeSet, storeGet, hh, hh2]
        exact ih

theorem applyUpd_taskId (t : RTask) (u : TaskUpd) : (applyUpd t u).taskId = t.taskId := rfl

/-- Core of the cancelled-task preservation argument, for the post-pop part of a
dispatch iteration: if the object with the given id is `CANCELLED`, the iteration
body neither changes that status nor invokes a worker on that id. -/
theorem risStepBody_preserves_cancelled (wb : WorkerFn) (hw : Bool) (pid : String)
    (ty : RType) (st1 : RState) (id : String) (tc : RTask)
    (htc : storeGet st1.store id = some tc) (htcs : tc.status = .CANCELLED) :
    statusAt (risStepBody wb hw pid ty st1).1 id = some RStatus.CANCELLED ∧
      REvent.workerInvoked id ∉ (risStepBody wb hw pid ty st1).2 := by
  unfold risStepBody
  cases hg : storeGet st1.store pid with
  | none => simp [statusAt, htc, htcs]
  | some t =>
    by_cases hcan : t.status = .CANCELLED
    · simp [hcan, statusAt, htc, htcs]
    · have hpid : pid ≠ id := by
        intro he
        rw [he, htc] at hg
        cases hg
        exact hcan htcs
      have htid : t.taskId = pid := storeGet_eq_id hg
      cases hhw : hw with
      | true =>
        cases hwb : wb t with
        | ok u =>
          have hpre : storeGet (storeSet st1.store pid (applyUpd t u)) id
              = storeGet st1.store id :=
            storeGet_set_ne hpid (by rw [applyUpd_taskId, htid])
          by_cases hterm : isTerminal (applyUpd t u).status = true
          · simp [hcan, hwb, hterm, statusAt, hpre, htc, htcs, Ne.symm hpid]
          · simp [hcan, hwb, hterm, statusAt, hpre, htc, htcs, Ne.symm hpid]
        | error m =>
          have hpre : storeGet (storeSet st1.store pid { t with status := .FAILED }) id
              = storeGet st1.store id := storeGet_set_ne hpid htid
          simp [hcan, hwb, statusAt, hpre, htc, htcs, Ne.symm hpid]
      | false =>
        cases ty <;> by_cases hterm : isTerminal t.status = true <;>
          simp [hcan, hterm, statusAt, htc, htcs]

/-- Once the task object with the given id is `CANCELLED`, one dispatch iteration
neither changes that status nor invokes a worker on it: the dispatcher discards a
cancelled head instead of dispatching it, and any other dispatched task has a
different id. -/
theorem risStep_preserves_cancelled (wb : WorkerFn) (hw : Bool) (st : RState)
    (id : String) (h : statusAt st id = some .CANCELLED) :
    statusAt (risStep wb hw st).1 id = some .CANCELLED ∧
      REvent.workerInvoked id ∉ (risStep wb hw st).2 := by
  obtain ⟨tc, htc, htcs⟩ : ∃ tc, storeGet st.store id = some tc ∧ tc.status = .CANCELLED := by
    unfold statusAt at h
    cases hg : storeGet st.store id with
    | none => rw [hg] at h; cases h
    | some tc =>
      rw [hg] at h
      refine ⟨tc, rfl, ?_⟩
      simpa using h
  unfold risStep
  cases hq1 : st.llmQ with
  | cons pid rest => exact risStepBody_preserves_cancelled wb hw pid _ _ id tc htc htcs
  | nil =>
    cases hq2 : st.ttsQ with
    | cons pid rest => exact risStepBody_preserves_cancelled wb hw pid _ _ id tc htc htcs
    | nil => exact ⟨by simp [statusAt, htc, htcs], by simp⟩

/-- Iterating the dispatch loop preserves a cancelled task and never invokes a
worker on it. -/
theorem risRun_preserves_cancelled (wb : WorkerFn) (hw : Bool) (n : Nat) (st : RState)
    (id : String) (h : statusAt st id = some .CANCELLED) :
    statusAt (risRun wb hw n st).1 id = some .CANCELLED ∧
      REvent.workerInvoked id ∉ (risRun wb hw n st).2 := by
  induction n generalizing st with
  | zero => simpa [risRun] using h
  | succ n ih =>
    have h1 := risStep_preserves_cancelled wb hw st id h
    have h2 := ih (risStep wb hw st).1 h1.1
    unfold risRun
    refine ⟨h2.1, ?_⟩
    simp only [List.mem_append]
    rintro (hc | hc)
    · exact h1.2 hc
    · exact h2.2 hc

/-- C2 (corrected), counterexample to the claim as stated: for an absent id the
status query does not return a distinguished not-found outcome; it returns the
real status value `CANCELLED`, the same value it returns for a present task
whose status is `CANCELLED`. -/
theorem C2_status_query_counterexample :
    getTaskStatus risEmpty "x" = RStatus.CANCELLED ∧
    getTaskStatus
        { risEmpty with store := [{ rTaskA with status := RStatus.CANCELLED }],
                        tasksIdx := ["a"] } "a"
      = getTaskStatus risEmpty "x" := by
  decide

/-- C2 (corrected, amended): for every id, `getTaskStatus` returns the task's
current status when the id is a live key of `tasks_`, and returns the real
status value `CANCELLED` (not a distinguished not-found outcome) when it is
absent. -/
theorem C2_status_query_amended : ∀ (st : RState) (id : String),
    (∀ t : RTask, risLookup st id = some t → getTaskStatus st id = t.status) ∧
    (risLookup st id = none → getTaskStatus st id = RStatus.CANCELLED) := by
  intro st id
  constructor
  · intro t h
    simp [getTaskStatus, h]
  · intro h
    simp [getTaskStatus, h]

/-- Witness for C2: the amended theorem applied to a present pending task and to
an unknown id. -/
theorem C2_status_query_witness :
    getTaskStatus (risSubmit (risInit risEmpty) rTaskA) "a" = RStatus.PENDING ∧
    getTaskStatus risEmpty "zzz" = RStatus.CANCELLED := by
  constructor
  · exact (C2_status_query_amended (risSubmit (risInit risEmpty) rTaskA) "a").1
      rTaskA (by decide)
  · exact (C2_status_query_amended risEmpty "zzz").2 (by decide)

/-- C4 (corrected), counterexample to the claim as stated: `cancelTask` returns a
bare `Bool`; on a `RUNNING` task it returns `false` — the very same value it
returns for an id that is not present at all — so there is no distinct `TooLate`
(nor `AlreadyFinished` / `NotFound`) outcome.  State is unchanged. -/
theorem C4_cancel_outcomes_counterexample :
    (risCancel stRunningA "a").1 = false ∧
    (risCancel stRunningA "zzz").1 = false ∧
    (risCancel stRunningA "a").1 = (risCancel stRunningA "zzz").1 ∧
    (risCancel stRunningA "a").2.1 = stRunningA := by
  decide

/-- C4 (corrected, amended): on a task whose status is `RUNNING`, `cancelTask`
returns `false` and changes nothing (the same `false` an unknown id produces —
the return type carries no distinct `TooLate`); and after a first successful
cancellation the record is purged from `tasks_`, so every repeated
`cancelTask(id)` returns `false` (the not-found path) and changes nothing. -/
theorem C4_cancel_outcomes_amended : ∀ (st : RState) (id : String) (t : RTask),
    st.tasksIdx.Nodup → risLookup st id = some t →
    ((t.status = RStatus.RUNNING → risCancel st id = (false, st, [])) ∧
     (t.status = RStatus.PENDING →
       risCancel (risCancel st id).2.1 id = (false, (risCancel st id).2.1, []))) := by
  intro st id t hnd hlk
  constructor
  · intro hr
    simp [risCancel, hlk, hr]
  · intro hp
    have h1 : (risCancel st id).2.1.tasksIdx = st.tasksIdx.erase id := by
      simp [risCancel, hlk, hp]
    have h2 : id ∉ (risCancel st id).2.1.tasksIdx := by
      rw [h1]
      intro hc
      exact ((hnd.mem_erase_iff).1 hc).1 rfl
    have h3 : risLookup (risCancel st id).2.1 id = none := by
      simp [risLookup, h2]
    generalize (risCancel st id).2.1 = st2 at h3 ⊢
    simp [risCancel, h3]

/-- Witness for C4: the amended theorem applied to the running-task state and to
a freshly submitted then cancelled task. -/
theorem C4_cancel_outcomes_witness :
    risCancel stRunningA "a" = (false, stRunningA, []) ∧
    risCancel (risCancel (risSubmit (risInit risEmpty) rTaskA) "a").2.1 "a"
      = (false, (risCancel (risSubmit (risInit risEmpty) rTaskA) "a").2.1, []) := by
  constructor
  · exact (C4_cancel_outcomes_amended stRunningA "a" { rTaskA with status := RStatus.RUNNING }
      (by decide) (by decide)).1 rfl
  · exact (C4_cancel_outcomes_amended (risSubmit (risInit risEmpty) rTaskA) "a" rTaskA
      (by decide) (by decide)).2 rfl

/-- C6 (corrected), counterexample to the claim as stated: shutting down a
scheduler holding one still-queued (PENDING) task does not transition it to
`CANCELLED` and signals no completion handler — the task object keeps status
`PENDING` and the traced call list is empty; the `tasks_` index is simply
cleared. -/
theorem C6_shutdown_counterexample :
    statusAt (risShutdown (risSubmit (risInit risEmpty) rTaskA)).1 "a"
      = some RStatus.PENDING ∧
    (risShutdown (risSubmit (risInit risEmpty) rTaskA)).2 = [] ∧
    (risShutdown (risSubmit (risInit risEmpty) rTaskA)).1.tasksIdx = [] := by
  decide

/-- C6 (corrected, amended): after `shutdown` returns on an initialized
scheduler, the `tasks_` index and all three class queues are empty, `running_`
is false (so no dispatch loop continues) and `initialized_` is cleared; but the
queued task objects are discarded without any status transition (the store is
untouched) and no completion handler is signalled. -/
theorem C6_shutdown_amended : ∀ st : RState, st.initDone = true →
    (risShutdown st).1.tasksIdx = [] ∧
    (risShutdown st).1.llmQ = [] ∧
    (risShutdown st).1.ttsQ = [] ∧
    (risShutdown st).1.imageQ = [] ∧
    (risShutdown st).1.running = false ∧
    (risShutdown st).1.store = st.store ∧
    (risShutdown st).2 = [] := by
  intro st h
  simp [risShutdown, h]

/-- Witness for C6: the amended theorem applied to an initialized scheduler with
one submitted task. -/
theorem C6_shutdown_witness :
    (risShutdown (risSubmit (risInit risEmpty) rTaskA)).1.tasksIdx = [] ∧
    (risShutdown (risSubmit (risInit risEmpty) rTaskA)).1.store
      = (risSubmit (risInit risEmpty) rTaskA).store := by
  have h := C6_shutdown_amended (risSubmit (risInit risEmpty) rTaskA) (by decide)
  exact ⟨h.1, h.2.2.2.2.2.1⟩

/-- C7 (code bug): two `Task<ResultType>` constructions that observe the same
`system_clock` reading produce the same id, although the code comments call it
a unique task id — the generated id list for clock trace `[5, 5]` has a
duplicate. -/
theorem C7_id_collision :
    risTaskIds [5, 5] = ["task_5", "task_5"] ∧ ¬ (risTaskIds [5, 5]).Nodup := by
  constructor
  · rfl
  · decide

/-- C10 (confirmed): `AsyncScheduler::submitTask` returns 0 and leaves the state
unchanged for a null task pointer; yet the id counter `next_id_` starts at 0, so
the first constructed task also has id 0 and submitting it returns the same 0
as the null-rejection sentinel. -/
theorem C10_null_sentinel : ∀ (st : AState) (ty : AType) (p : Prio) (pl : String),
    asyncSubmit st none = (0, st) ∧
    (mkATask 0 ty p pl).1.id = 0 ∧
    (asyncSubmit st (some (mkATask 0 ty p pl).1)).1 = 0 := by
  intro st ty p pl
  exact ⟨rfl, rfl, rfl⟩

/-- C3 (corrected), counterexample to the claim as stated: cancelling a freshly
submitted (Queued) task succeeds, but the scheduler makes no outgoing call at
all — in particular no completion handler is invoked with a Cancelled outcome
(there is no completion-handler mechanism in `ResourceIsolationScheduler`). -/
theorem C3_cancel_queued_counterexample :
    (risCancel (risSubmit (risInit risEmpty) rTaskA) "a").1 = true ∧
    (risCancel (risSubmit (risInit risEmpty) rTaskA) "a").2.2 = [] ∧
    REvent.handlerInvoked "a" RStatus.CANCELLED
      ∉ (risCancel (risSubmit (risInit risEmpty) rTaskA) "a").2.2 := by
  decide

/-- C3 (corrected, amended): for every task whose status is `PENDING` (Queued)
when `cancelTask(id)` is called, the call atomically sets the task object's
status to `CANCELLED`, removes the id from `tasks_`, returns success, and makes
no outgoing call (no completion handler exists to be invoked); the worker is
never invoked on that task by any number of later dispatch iterations even
though the record still sits in its class queue — the dispatcher discards it on
encounter. -/
theorem C3_cancel_queued_amended : ∀ (st : RState) (id : String) (t : RTask),
    st.tasksIdx.Nodup → risLookup st id = some t → t.status = RStatus.PENDING →
    (risCancel st id).1 = true ∧
    statusAt (risCancel st id).2.1 id = some RStatus.CANCELLED ∧
    id ∉ (risCancel st id).2.1.tasksIdx ∧
    (risCancel st id).2.2 = [] ∧
    (∀ (wb : WorkerFn) (hw : Bool) (n : Nat),
       REvent.workerInvoked id ∉ (risRun wb hw n (risCancel st id).2.1).2) := by
  intro st id t hnd hlk hp
  have hsg : storeGet st.store id = some t := by
    by_cases hmem : id ∈ st.tasksIdx
    · simpa [risLookup, hmem] using hlk
    · simp [risLookup, hmem] at hlk
  have htid : t.taskId = id := storeGet_eq_id hsg
  have hset : storeGet (storeSet st.store id { t with status := RStatus.CANCELLED }) id
      = some { t with status := RStatus.CANCELLED } :=
    storeGet_set_self hsg htid
  have hceq : risCancel st id =
      (true,
       { st with store := storeSet st.store id { t with status := RStatus.CANCELLED },
                 tasksIdx := st.tasksIdx.erase id },
       []) := by
    simp [risCancel, hlk, hp]
  rw [hceq]
  refine ⟨rfl, ?_, ?_, rfl, ?_⟩
  · simp [statusAt, hset]
  · intro hc
    exact ((hnd.mem_erase_iff).1 hc).1 rfl
  · intro wb hw n
    have hcs : statusAt
        { st with store := storeSet st.store id { t with status := RStatus.CANCELLED },
                  tasksIdx := st.tasksIdx.erase id } id = some RStatus.CANCELLED := by
      simp [statusAt, hset]
    exact (risRun_preserves_cancelled wb hw n _ id hcs).2

/-- Witness for C3: the amended theorem applied to a scheduler with the single
submitted task "a", for three subsequent dispatch iterations of the executing
worker. -/
theorem C3_cancel_queued_witness :
    (risCancel (risSubmit (risInit risEmpty) rTaskA) "a").1 = true ∧
    REvent.workerInvoked "a"
      ∉ (risRun execWorker true 3 (risCancel (risSubmit (risInit risEmpty) rTaskA) "a").2.1).2 := by
  have h := C3_cancel_queued_amended (risSubmit (risInit risEmpty) rTaskA) "a" rTaskA
    (by decide) (by decide) rfl
  exact ⟨h.1, h.2.2.2.2 execWorker true 3⟩

theorem pickHigh_find {q : List ATask} {t : ATask} {rest : List ATask}
    (h : pickHigh q = some (t, rest)) : firstHigh q = some t := by
  induction q generalizing rest with
  | nil => simp [pickHigh] at h
  | cons hd tl ih =>
    by_cases hh : isHigh hd
    · simp [pickHigh, hh] at h
      obtain ⟨h1, h2⟩ := h
      subst h1
      simp [firstHigh, List.find?, hh]
    · simp only [pickHigh, hh, if_neg, Bool.false_eq_true, ite_false] at h
      cases hp : pickHigh tl with
      | none => rw [hp] at h; cases h
      | some p =>
        obtain ⟨u, r2⟩ := p
        rw [hp] at h
        simp at h
        obtain ⟨h1, _⟩ := h
        subst h1
        have := ih hp
        simpa [firstHigh, List.find?, hh] using this
  
theorem pickHigh_none {q : List ATask} (h : pickHigh q = none) : firstHigh q = none := by
  induction q with
  | nil => simp [firstHigh]
  | cons hd tl ih =>
    by_cases hh : isHigh hd
    · simp [pickHigh, hh] at h
    · simp only [pickHigh, hh, Bool.false_eq_true, ite_false] at h
      cases hp : pickHigh tl with
      | none => simp [firstHigh, List.find?, hh]; simpa [firstHigh] using ih hp
      | some p => rw [hp] at h; obtain ⟨u, r2⟩ := p; cases h

/-- C1 (corrected), counterexample to the claim as stated: with the S2 queue
"a" (Low), "b" (High), "c" (Medium), the `AsyncScheduler` worker starts tasks in
the order b, a, c — not the claimed b, c, a (Medium is not preferred over Low) —
and the `ResourceIsolationScheduler` TTS queue (a plain FIFO `std::queue`)
dispatches a, b, c, ignoring priority entirely. -/
theorem C1_class_order_counterexample :
    startNames 3 ttsSampleQ = ["b", "a", "c"] ∧
    startNames 3 ttsSampleQ ≠ ["b", "c", "a"] ∧
    (risRun execWorker true 3 risSampleTTS).2 =
      [REvent.workerInvoked "a", REvent.workerInvoked "b", REvent.workerInvoked "c"] := by
  refine ⟨rfl, by decide, rfl⟩

/-- C1 (corrected, amended): within one `AsyncScheduler` class queue, each
dispatch picks the earliest-submitted High-priority task when one is queued and
otherwise the earliest-submitted task regardless of Medium/Low priority; in
particular three TTS tasks "a","b","c" submitted at Low, High, Medium start
in the order "b","a","c". -/
theorem C1_class_order_amended :
    (∀ (q : List ATask) (t : ATask) (rest : List ATask),
        pickNext q = some (t, rest) →
        (firstHigh q = some t ∨ (firstHigh q = none ∧ q = t :: rest))) ∧
    startNames 3 ttsSampleQ = ["b", "a", "c"] := by
  constructor
  · intro q t rest h
    unfold pickNext at h
    cases hp : pickHigh q with
    | some p =>
      rw [hp] at h
      obtain ⟨u, r2⟩ := p
      simp at h
      left
      rw [← h.1]
      exact pickHigh_find hp
    | none =>
      rw [hp] at h
      cases q with
      | nil => cases h
      | cons hd tl =>
        simp at h
        right
        exact ⟨pickHigh_none hp, by rw [h.1, h.2]⟩
  · rfl

/-- Witness for C1: the amended dispatch rule applied to the concrete S2 queue
(the High task "b" is picked first). -/
theorem C1_class_order_witness :
    firstHigh ttsSampleQ = some taskB ∨
      (firstHigh ttsSampleQ = none ∧ ttsSampleQ = taskB :: [taskA, taskC]) :=
  C1_class_order_amended.1 ttsSampleQ taskB [taskA, taskC] (by decide)

/-- C8 (confirmed): when the work of a task raises an exception, the failure is
contained.  Part 1 (the S6 path): an LLM task whose task function throws `msg`
ends `FAILED` with the error `msg` recorded on the task object (stored by
`Task::execute` when the worker runs the task), `failedTasks_` is incremented,
and the dispatch loop goes on to serve the next submission, which completes
normally.  Part 2 (the dispatcher-catch path, lines 260-264): when
`worker->processTask` itself throws, the dispatcher catches the exception,
marks the task `FAILED`, increments `failedTasks_`, and the iteration returns a
well-defined state instead of tearing down the loop. -/
theorem C8_worker_exception : ∀ (msg v : String),
    (statusAt (risRun execWorker true 2
        (risSubmit (risSubmit (risInit risEmpty)
          (mkRTask 1 RType.LLM_INFERENCE Prio.HIGH (TaskFn.fail msg)))
          (mkRTask 2 RType.LLM_INFERENCE Prio.MEDIUM (TaskFn.ok v)))).1
        (risTaskIdString 1) = some RStatus.FAILED ∧
     errAt (risRun execWorker true 2
        (risSubmit (risSubmit (risInit risEmpty)
          (mkRTask 1 RType.LLM_INFERENCE Prio.HIGH (TaskFn.fail msg)))
          (mkRTask 2 RType.LLM_INFERENCE Prio.MEDIUM (TaskFn.ok v)))).1
        (risTaskIdString 1) = some (some msg) ∧
     statusAt (risRun execWorker true 2
        (risSubmit (risSubmit (risInit risEmpty)
          (mkRTask 1 RType.LLM_INFERENCE Prio.HIGH (TaskFn.fail msg)))
          (mkRTask 2 RType.LLM_INFERENCE Prio.MEDIUM (TaskFn.ok v)))).1
        (risTaskIdString 2) = some RStatus.COMPLETED ∧
     resultAt (risRun execWorker true 2
        (risSubmit (risSubmit (risInit risEmpty)
          (mkRTask 1 RType.LLM_INFERENCE Prio.HIGH (TaskFn.fail msg)))
          (mkRTask 2 RType.LLM_INFERENCE Prio.MEDIUM (TaskFn.ok v)))).1
        (risTaskIdString 2) = some (some v) ∧
     (risRun execWorker true 2
        (risSubmit (risSubmit (risInit risEmpty)
          (mkRTask 1 RType.LLM_INFERENCE Prio.HIGH (TaskFn.fail msg)))
          (mkRTask 2 RType.LLM_INFERENCE Prio.MEDIUM (TaskFn.ok v)))).1.failedTasks = 1 ∧
     (risRun execWorker true 2
        (risSubmit (risSubmit (risInit risEmpty)
          (mkRTask 1 RType.LLM_INFERENCE Prio.HIGH (TaskFn.fail msg)))
          (mkRTask 2 RType.LLM_INFERENCE Prio.MEDIUM (TaskFn.ok v)))).1.completedTasks = 1 ∧
     (risRun execWorker true 2
        (risSubmit (risSubmit (risInit risEmpty)
          (mkRTask 1 RType.LLM_INFERENCE Prio.HIGH (TaskFn.fail msg)))
          (mkRTask 2 RType.LLM_INFERENCE Prio.MEDIUM (TaskFn.ok v)))).2 =
       [REvent.workerInvoked (risTaskIdString 1), REvent.workerInvoked (risTaskIdString 2)]) ∧
    (∀ (st : RState) (id : String) (q : List String) (t : RTask) (m : String),
       st.llmQ = id :: q → storeGet st.store id = some t → t.status = RStatus.PENDING →
       statusAt (risStep (fun _ => Except.error m) true st).1 id = some RStatus.FAILED ∧
       (risStep (fun _ => Except.error m) true st).1.failedTasks = st.failedTasks + 1) := by
  intro msg v
  constructor
  · exact ⟨rfl, rfl, rfl, rfl, rfl, rfl, rfl⟩
  · intro st id q t m hq hg hp
    have htid : t.taskId = id := storeGet_eq_id hg
    have hset : storeGet (storeSet st.store id { t with status := RStatus.FAILED }) id
        = some { t with status := RStatus.FAILED } := storeGet_set_self hg htid
    have hnc : ¬(t.status = RStatus.CANCELLED) := by rw [hp]; intro hc; cases hc
    simp [risStep, hq, risStepBody, hg, hnc, statusAt, hset, isTerminal]

/-- Witness for C8: the theorem at the concrete error "oom" (spec scenario S6)
and, for the dispatcher-catch part, a concrete LLM task with a worker that
throws "boom". -/
theorem C8_worker_exception_witness :
    errAt (risRun execWorker true 2
        (risSubmit (risSubmit (risInit risEmpty)
          (mkRTask 1 RType.LLM_INFERENCE Prio.HIGH (TaskFn.fail "oom")))
          (mkRTask 2 RType.LLM_INFERENCE Prio.MEDIUM (TaskFn.ok "OK")))).1
        (risTaskIdString 1) = some (some "oom") ∧
    statusAt (risStep (fun _ => Except.error "boom") true
        (risSubmit (risInit risEmpty) rTaskL)).1 (risTaskIdString 7)
      = some RStatus.FAILED := by
  constructor
  · exact (C8_worker_exception "oom" "OK").1.2.1
  · exact ((C8_worker_exception "oom" "OK").2 (risSubmit (risInit risEmpty) rTaskL)
      (risTaskIdString 7) [] rTaskL "boom" (by decide) (by decide) rfl).1

/-- C9 (confirmed): `AsyncScheduler::cancelTask(id)` returns true exactly when
the id is a key of `tasks_`, with no check of execution state; the worker-thread
dequeue removes a task from its queue but leaves `tasks_` untouched (the entry
is erased only after `execute()` returns), so cancelling a task that a worker
has already dequeued and is executing still returns true — a true return does
not mean the task's work was prevented. -/
theorem C9_cancel_map_only :
    (∀ (st : AState) (id : Nat),
        ((asyncCancel st id).1 = true ↔ (mapLookup st.tasks id).isSome = true)) ∧
    (∀ (ty : AType) (st : AState) (t : ATask) (st2 : AState),
        asyncDequeue ty st = some (t, st2) → st2.tasks = st.tasks) ∧
    (∀ (ty : AType) (st : AState) (t : ATask) (st2 : AState),
        asyncDequeue ty st = some (t, st2) → (mapLookup st.tasks t.id).isSome = true →
          (asyncCancel st2 t.id).1 = true) := by
  have hA : ∀ (st : AState) (id : Nat),
      ((asyncCancel st id).1 = true ↔ (mapLookup st.tasks id).isSome = true) := by
    intro st id
    cases h : mapLookup st.tasks id with
    | none => simp [asyncCancel, h]
    | some t => simp [asyncCancel, h]
  have hB : ∀ (ty : AType) (st : AState) (t : ATask) (st2 : AState),
      asyncDequeue ty st = some (t, st2) → st2.tasks = st.tasks := by
    intro ty st t st2 h
    cases ty with
    | LLM_GPU =>
      cases hp : pickNext st.llmQ with
      | none => simp [asyncDequeue, hp] at h
      | some p =>
        simp [asyncDequeue, hp] at h
        rw [← h.2]
    | TTS_CPU =>
      cases hp : pickNext st.ttsQ with
      | none => simp [asyncDequeue, hp] at h
      | some p =>
        simp [asyncDequeue, hp] at h
        rw [← h.2]
    | IMAGE_GPU_QUEUE =>
      cases hp : pickNext st.imgQ with
      | none => simp [asyncDequeue, hp] at h
      | some p =>
        simp [asyncDequeue, hp] at h
        rw [← h.2]
  refine ⟨hA, hB, ?_⟩
  intro ty st t st2 h hm
  refine (hA st2 t.id).2 ?_
  rw [hB ty st t st2 h]
  exact hm

/-- Witness for C9: the composed statement at a concrete state: task "b" (id 1)
is dequeued by a TTS worker thread, stays in `tasks_`, and cancelling it while
it executes still returns true. -/
theorem C9_cancel_map_only_witness :
    (asyncCancel { aStateB with ttsQ := [] } taskB.id).1 = true := by
  exact C9_cancel_map_only.2.2 AType.TTS_CPU aStateB taskB { aStateB with ttsQ := [] }
    (by decide) (by decide)

/-- Registry invariant maintained by `addWorker` along any registration
sequence: every worker classified into `cpuWorkers_` cannot handle LLM work
(LLM-capable workers take the GPU branch), and `llmWorker_`, when set, is
LLM-capable. -/
theorem buildRegistry_inv (ws : List Worker) (r : Registry)
    (h1 : ∀ w ∈ r.cpuWorkers, w.canLLM = false)
    (h2 : ∀ lw, r.llmWorker = some lw → lw.canLLM = true) :
    (∀ w ∈ (ws.foldl addWorker r).cpuWorkers, w.canLLM = false) ∧
    (∀ lw, (ws.foldl addWorker r).llmWorker = some lw → lw.canLLM = true) := by
  induction ws generalizing r with
  | nil => exact ⟨h1, h2⟩
  | cons w rest ih =>
    simp only [List.foldl_cons]
    apply ih
    · intro u hu
      by_cases hg : (w.canLLM || w.canIMG) = true
      · by_cases hset : (w.canLLM && r.llmWorker.isNone) = true
        · simp [addWorker, hg, hset] at hu
          exact h1 u hu
        · simp [addWorker, hg, hset] at hu
          exact h1 u hu
      · by_cases ht : w.canTTS = true
        · simp [addWorker, hg, ht] at hu
          rcases hu with hu | hu
          · exact h1 u hu
          · subst hu
            simp at hg
            exact hg.1
        · simp [addWorker, hg, ht] at hu
          exact h1 u hu
    · intro lw hlw
      by_cases hg : (w.canLLM || w.canIMG) = true
      · by_cases hset : (w.canLLM && r.llmWorker.isNone) = true
        · simp [addWorker, hg, hset] at hlw
          subst hlw
          simp only [Bool.and_eq_true] at hset
          exact hset.1
        · simp [addWorker, hg, hset] at hlw
          exact h2 lw hlw
      · by_cases ht : w.canTTS = true
        · simp [addWorker, hg, ht] at hlw
          exact h2 lw hlw
        · simp [addWorker, hg, ht] at hlw
          exact h2 lw hlw

/-- C5 (confirmed): for a registry built by any sequence of `addWorker`
registrations, a non-LLM dispatch never selects the dedicated LLM worker: the
TTS search runs over `cpuWorkers_`, none of which is LLM-capable while
`llmWorker_` is, and the GPU searches (in `selectWorker` and in
`processImageGenerationQueue`) skip `llmWorker_` by pointer comparison.  So the
dedicated worker can only ever be returned for `LLM_INFERENCE`. -/
theorem C5_lm_exclusive : ∀ (ws : List Worker) (ty : RType) (w lw : Worker),
    (buildRegistry ws).llmWorker = some lw →
    ty ≠ RType.LLM_INFERENCE →
    ((selectWorker (buildRegistry ws) ty = some w → w ≠ lw) ∧
     (selectImageWorker (buildRegistry ws) = some w → w ≠ lw)) := by
  intro ws ty w lw hllm hty
  have hinv := buildRegistry_inv ws regEmpty (by simp [regEmpty]) (by simp [regEmpty])
  have hlwllm : lw.canLLM = true := hinv.2 lw hllm
  have himg : selectImageWorker (buildRegistry ws) = some w → w ≠ lw := by
    intro hsel
    have hpw := List.find?_some hsel
    simp only [Bool.and_eq_true] at hpw
    have hptr : notSameAsLLM (buildRegistry ws) w = true := hpw.1.1
    rw [notSameAsLLM, hllm] at hptr
    intro he
    rw [he] at hptr
    simp at hptr
  constructor
  · intro hsel
    unfold selectWorker at hsel
    simp only [hllm] at hsel
    rw [if_neg hty] at hsel
    cases ty with
    | LLM_INFERENCE => exact absurd rfl hty
    | TTS_SYNTHESIS =>
      rw [selectRest, if_pos rfl] at hsel
      have hmem := List.mem_of_find?_eq_some hsel
      have hno : w.canLLM = false := hinv.1 w hmem
      intro he
      rw [he, hlwllm] at hno
      cases hno
    | IMAGE_GENERATION =>
      rw [selectRest, if_neg (by intro hc; cases hc)] at hsel
      have hpw := List.find?_some hsel
      simp only [Bool.and_eq_true] at hpw
      have hptr : notSameAsLLM (buildRegistry ws) w = true := hpw.1.1
      rw [notSameAsLLM, hllm] at hptr
      intro he
      rw [he] at hptr
      simp at hptr
  · exact himg

/-- Witness for C5: registry with one dedicated LLM worker and one TTS CPU
worker — the worker selected for a TTS dispatch is the CPU worker, not the
dedicated LLM worker. -/
theorem C5_lm_exclusive_witness :
    selectWorker (buildRegistry [wLM0, wTTS0]) RType.TTS_SYNTHESIS = some wTTS0 ∧
    wTTS0 ≠ wLM0 := by
  refine ⟨by decide, ?_⟩
  exact (C5_lm_exclusive [wLM0, wTTS0] RType.TTS_SYNTHESIS wTTS0 wLM0
    (by decide) (by decide)).1 (by decide)
